import Mathlib

/-!
Verification of the financial-domain core of the second-brain repository.

The TypeScript sources are embedded shallowly:

* JavaScript numbers are modelled as exact rationals (`ℚ`); `NaN`,
  `Infinity` and floating-point rounding are outside the model.
* A JavaScript `Date` value is modelled as `Option Int` (milliseconds since
  the epoch; `none` stands for an `Invalid Date`, whose time value is `NaN`).
  A validated entity stores only valid dates, hence plain `Int` fields.
* JavaScript truthiness: a number is truthy iff it is nonzero, a string is
  truthy iff it is nonempty, `undefined`/`null` are falsy, and objects
  (`Date`, arrays) are always truthy.  `undefined` and `null` are both
  modelled as `Option.none`.
* A constructor or method that can `throw` is modelled as a function into
  `Except String _`; the error message is the thrown message.
* Methods that stamp `this._updatedAt = new Date()` take the current time
  as an explicit `now : Int` argument.
-/

/-- JSDate models a JavaScript `Date` value: `some ms` is a valid date with
the given epoch-milliseconds time value, `none` is an `Invalid Date`. -/
abbrev JSDate := Option Int

/-- Truthiness of an optional JS number (`undefined`, `null` and `0` are falsy). -/
def optNumTruthy : Option ℚ → Bool
  | none => false
  | some q => q != 0

/-- Truthiness of an optional JS string (`undefined`, `null` and `""` are falsy). -/
def optStrTruthy : Option String → Bool
  | none => false
  | some s => s != ""

/-- jsTrim models `String.prototype.trim`: it strips leading and trailing
whitespace.  It is written over the character list so that it evaluates by
kernel reduction. -/
def jsTrim (s : String) : String :=
  String.mk ((s.data.dropWhile Char.isWhitespace).reverse.dropWhile
    Char.isWhitespace).reverse

/-- Blank-string test used by the entity validators: the source pattern
`!s || s.trim().length === 0` holds exactly when the string trims to empty
(the empty string itself also trims to empty). -/
def isBlankStr (s : String) : Bool := jsTrim s == ""

deriving instance DecidableEq for Except

/-- Values of `Except.isOk` on the two constructors. -/
@[simp] theorem except_isOk_ok {ε α : Type} (a : α) :
    (Except.ok a : Except ε α).isOk = true := rfl

/-- Values of `Except.isOk` on the two constructors. -/
@[simp] theorem except_isOk_error {ε α : Type} (e : ε) :
    (Except.error e : Except ε α).isOk = false := rfl

/-- GoalStatus mirrors the TypeScript union
`'active' | 'completed' | 'paused' | 'cancelled'` of FinancialGoal. -/
inductive GoalStatus
  | active
  | completed
  | paused
  | cancelled
deriving DecidableEq, Repr

/-- FinancialGoal entity state (src/domain/finance/entities/financial-goal.entity.ts).
Field names follow the private fields of the class; a validated entity stores
only valid dates, so date-valued fields are plain `Int` milliseconds. -/
structure FinancialGoal where
  userId : Int
  title : String
  description : Option String
  targetAmount : ℚ
  currentAmount : ℚ
  targetDate : Option Int
  category : String
  status : GoalStatus
  createdAt : Int
  updatedAt : Option Int
  id : Option Nat
deriving DecidableEq, Repr

/-- Constructor of FinancialGoal.  Validation order and messages follow the
source: userId, title, targetAmount, currentAmount, category, and the target
date only when one is supplied (`if (targetDate) this.validateTargetDate(...)`;
a `Date` object is always truthy, so a supplied invalid date is checked and
rejected).  The source guard `!userId || userId <= 0` is `userId ≤ 0` over
integers, since `0` is both falsy and non-positive. -/
def mkFinancialGoal (userId : Int) (title : String) (targetAmount : ℚ)
    (currentAmount : ℚ) (category : String) (description : Option String)
    (targetDate : Option JSDate) (status : GoalStatus) (createdAt : Int)
    (updatedAt : Option Int) (id : Option Nat) : Except String FinancialGoal :=
  if userId ≤ 0 then .error "User ID must be a positive number"
  else if isBlankStr title then .error "Goal title cannot be empty"
  else if targetAmount ≤ 0 then .error "Goal target amount must be greater than zero"
  else if currentAmount < 0 then .error "Goal current amount cannot be negative"
  else if isBlankStr category then .error "Goal category cannot be empty"
  else if targetDate = some none then .error "Goal target date must be a valid date"
  else
    .ok ⟨userId, title, description, targetAmount, currentAmount,
         targetDate.bind (fun d => d), category, status, createdAt, updatedAt, id⟩

/-- Method updateTitle of FinancialGoal. -/
def FinancialGoal.updateTitle (g : FinancialGoal) (title : String) (now : Int) :
    Except String FinancialGoal :=
  if isBlankStr title then .error "Goal title cannot be empty"
  else .ok { g with title := title, updatedAt := some now }

/-- Method updateDescription of FinancialGoal (no validation in the source). -/
def FinancialGoal.updateDescription (g : FinancialGoal) (description : Option String)
    (now : Int) : FinancialGoal :=
  { g with description := description, updatedAt := some now }

/-- Method updateTargetAmount of FinancialGoal: validates positivity, stores the
new target, and flips the status to completed when the (unchanged) current
amount now reaches the new target and the goal was active. -/
def FinancialGoal.updateTargetAmount (g : FinancialGoal) (targetAmount : ℚ)
    (now : Int) : Except String FinancialGoal :=
  if targetAmount ≤ 0 then .error "Goal target amount must be greater than zero"
  else .ok { g with
    targetAmount := targetAmount
    updatedAt := some now
    status :=
      if g.currentAmount ≥ targetAmount ∧ g.status = .active then .completed
      else g.status }

/-- Method updateCurrentAmount of FinancialGoal: validates non-negativity,
stores the new current amount, and flips the status to completed when it
reaches the target and the goal was active. -/
def FinancialGoal.updateCurrentAmount (g : FinancialGoal) (currentAmount : ℚ)
    (now : Int) : Except String FinancialGoal :=
  if currentAmount < 0 then .error "Goal current amount cannot be negative"
  else .ok { g with
    currentAmount := currentAmount
    updatedAt := some now
    status :=
      if currentAmount ≥ g.targetAmount ∧ g.status = .active then .completed
      else g.status }

/-- Method addProgress of FinancialGoal: requires a positive delta, adds it to
the current amount, and flips the status to completed when the new current
amount reaches the target and the goal was active. -/
def FinancialGoal.addProgress (g : FinancialGoal) (amount : ℚ) (now : Int) :
    Except String FinancialGoal :=
  if amount ≤ 0 then .error "Progress amount must be greater than zero"
  else .ok { g with
    currentAmount := g.currentAmount + amount
    updatedAt := some now
    status :=
      if g.currentAmount + amount ≥ g.targetAmount ∧ g.status = .active then .completed
      else g.status }

/-- Method updateTargetDate of FinancialGoal: validates the date only when one
is supplied (a `Date` object is truthy even when invalid). -/
def FinancialGoal.updateTargetDate (g : FinancialGoal) (targetDate : Option JSDate)
    (now : Int) : Except String FinancialGoal :=
  if targetDate = some none then .error "Goal target date must be a valid date"
  else .ok { g with targetDate := targetDate.bind (fun d => d), updatedAt := some now }

/-- Method updateCategory of FinancialGoal. -/
def FinancialGoal.updateCategory (g : FinancialGoal) (category : String) (now : Int) :
    Except String FinancialGoal :=
  if isBlankStr category then .error "Goal category cannot be empty"
  else .ok { g with category := category, updatedAt := some now }

/-- Method markAsActive of FinancialGoal. -/
def FinancialGoal.markAsActive (g : FinancialGoal) (now : Int) : FinancialGoal :=
  { g with status := .active, updatedAt := some now }

/-- Method markAsCompleted of FinancialGoal. -/
def FinancialGoal.markAsCompleted (g : FinancialGoal) (now : Int) : FinancialGoal :=
  { g with status := .completed, updatedAt := some now }

/-- Method markAsPaused of FinancialGoal. -/
def FinancialGoal.markAsPaused (g : FinancialGoal) (now : Int) : FinancialGoal :=
  { g with status := .paused, updatedAt := some now }

/-- Method markAsCancelled of FinancialGoal. -/
def FinancialGoal.markAsCancelled (g : FinancialGoal) (now : Int) : FinancialGoal :=
  { g with status := .cancelled, updatedAt := some now }

/-- Method getProgressPercentage of FinancialGoal:
`(currentAmount / targetAmount) * 100`. -/
def FinancialGoal.getProgressPercentage (g : FinancialGoal) : ℚ :=
  g.currentAmount / g.targetAmount * 100

/-- Method isCompleted of FinancialGoal. -/
def FinancialGoal.isCompleted (g : FinancialGoal) : Bool :=
  g.status = .completed

/-- Metadata models a JSON-serialisable metadata object
(`Record<string, any>` in the sources).  `JSON.stringify` of such an object is
a nonempty string and `JSON.parse` inverts it, so the stringify/parse pair is
modelled as the identity on this value-level representation. -/
abbrev Metadata := List (String × String)

/-- FinancialTransaction entity state
(src/domain/finance/entities/financial-transaction.entity.ts). -/
structure FinancialTransaction where
  userId : Int
  amount : ℚ
  type : String
  category : String
  description : String
  date : Int
  account : Option String
  tags : Option (List String)
  metadata : Option Metadata
  createdAt : Int
  updatedAt : Option Int
  id : Option Nat
deriving DecidableEq, Repr

/-- Valid transaction types checked by `validateType` of FinancialTransaction. -/
def validTransactionTypes : List String := ["income", "expense", "transfer"]

/-- Constructor of FinancialTransaction.  Validation order and messages follow
the source: userId, amount, type, category, description, date.  The `type`
argument is a plain string because the raw extraction path feeds untyped
values through this check at runtime. -/
def mkFinancialTransaction (userId : Int) (amount : ℚ) (type : String)
    (category : String) (description : String) (date : JSDate)
    (account : Option String) (tags : Option (List String))
    (metadata : Option Metadata) (createdAt : Int) (updatedAt : Option Int)
    (id : Option Nat) : Except String FinancialTransaction :=
  if userId ≤ 0 then .error "User ID must be a positive number"
  else if amount ≤ 0 then .error "Transaction amount must be greater than zero"
  else if type ∉ validTransactionTypes then
    .error "Transaction type must be income, expense, or transfer"
  else if isBlankStr category then .error "Transaction category cannot be empty"
  else if isBlankStr description then .error "Transaction description cannot be empty"
  else match date with
    | none => .error "Transaction date must be a valid date"
    | some d =>
        .ok ⟨userId, amount, type, category, description, d, account, tags,
             metadata, createdAt, updatedAt, id⟩

/-- Valid account types checked by `validateType` of FinancialAccount. -/
def validAccountTypes : List String :=
  ["checking", "savings", "credit", "investment", "cash"]

/-- FinancialAccount entity state
(src/domain/finance/entities/financial-account.entity.ts). -/
structure FinancialAccount where
  userId : Int
  name : String
  type : String
  bank : Option String
  balance : Option ℚ
  isActive : Bool
  createdAt : Int
  updatedAt : Option Int
  id : Option Nat
deriving DecidableEq, Repr

/-- Constructor of FinancialAccount.  Validation order follows the source:
userId, name, type, and the balance only when defined.  `validateBalance` only
rejects `NaN`, which has no counterpart in the exact-rational embedding, so a
defined balance (of any sign, including negative) is always accepted. -/
def mkFinancialAccount (userId : Int) (name : String) (type : String)
    (bank : Option String) (balance : Option ℚ) (isActive : Bool)
    (createdAt : Int) (updatedAt : Option Int) (id : Option Nat) :
    Except String FinancialAccount :=
  if userId ≤ 0 then .error "User ID must be a positive number"
  else if isBlankStr name then .error "Account name cannot be empty"
  else if type ∉ validAccountTypes then
    .error "Account type must be checking, savings, credit, investment, or cash"
  else .ok ⟨userId, name, type, bank, balance, isActive, createdAt, updatedAt, id⟩

/-- Method updateBalance of FinancialAccount (`validateBalance` only rejects
`NaN`, absent from the rational embedding, so no failure case remains). -/
def FinancialAccount.updateBalance (a : FinancialAccount) (balance : Option ℚ)
    (now : Int) : FinancialAccount :=
  { a with balance := balance, updatedAt := some now }

/-- Method deposit of FinancialAccount: rejects non-positive amounts; an
undefined balance becomes the amount, otherwise the amount is added. -/
def FinancialAccount.deposit (a : FinancialAccount) (amount : ℚ) (now : Int) :
    Except String FinancialAccount :=
  if amount ≤ 0 then .error "Deposit amount must be greater than zero"
  else match a.balance with
    | none => .ok { a with balance := some amount, updatedAt := some now }
    | some b => .ok { a with balance := some (b + amount), updatedAt := some now }

/-- Method withdraw of FinancialAccount: rejects non-positive amounts, an
undefined balance, and insufficient funds, then subtracts. -/
def FinancialAccount.withdraw (a : FinancialAccount) (amount : ℚ) (now : Int) :
    Except String FinancialAccount :=
  if amount ≤ 0 then .error "Withdrawal amount must be greater than zero"
  else match a.balance with
    | none => .error "Cannot withdraw from account with undefined balance"
    | some b =>
        if b < amount then .error "Insufficient funds"
        else .ok { a with balance := some (b - amount), updatedAt := some now }

/-- Transcription entity state
(src/domain/transcription/entities/transcription.entity.ts). -/
structure Transcription where
  userId : Int
  text : String
  audioDuration : Option ℚ
  createdAt : Int
  metadata : Option Metadata
  id : Option Nat
deriving DecidableEq, Repr

/-- Constructor of Transcription.  The source validates the text first and the
user id second. -/
def mkTranscription (userId : Int) (text : String) (createdAt : Int)
    (audioDuration : Option ℚ) (metadata : Option Metadata) (id : Option Nat) :
    Except String Transcription :=
  if isBlankStr text then .error "Transcription text cannot be empty"
  else if userId ≤ 0 then .error "User ID must be a positive number"
  else .ok ⟨userId, text, audioDuration, createdAt, metadata, id⟩

/-- C1: each of updateCurrentAmount, updateTargetAmount and addProgress, when
it succeeds, sets the status to completed exactly when the resulting current
amount is at least the resulting target amount and the status before the call
was active; from paused, cancelled or completed the status is left unchanged. -/
theorem goal_status_auto_completion (g : FinancialGoal) (x : ℚ) (now : Int)
    (g' : FinancialGoal)
    (h : g.updateCurrentAmount x now = .ok g' ∨
         g.updateTargetAmount x now = .ok g' ∨
         g.addProgress x now = .ok g') :
    g'.status =
      if g.status = .active ∧ g'.targetAmount ≤ g'.currentAmount then .completed
      else g.status := by
  rcases h with h | h | h
  · unfold FinancialGoal.updateCurrentAmount at h
    split at h
    · exact absurd h (by simp)
    · cases h
      by_cases hA : g.status = .active <;> by_cases hL : g.targetAmount ≤ x <;>
        simp [hA, hL, ge_iff_le]
  · unfold FinancialGoal.updateTargetAmount at h
    split at h
    · exact absurd h (by simp)
    · cases h
      by_cases hA : g.status = .active <;> by_cases hL : x ≤ g.currentAmount <;>
        simp [hA, hL, ge_iff_le]
  · unfold FinancialGoal.addProgress at h
    split at h
    · exact absurd h (by simp)
    · cases h
      by_cases hA : g.status = .active <;>
        by_cases hL : g.targetAmount ≤ g.currentAmount + x <;>
        simp [hA, hL, ge_iff_le]

/-- Witness for C1: updating the current amount of a concrete active goal to
reach its target yields a completed goal, as the theorem predicts. -/
theorem goal_status_auto_completion_witness :
    (FinancialGoal.updateCurrentAmount
        ⟨1, "Trip", none, 100, 20, none, "travel", .active, 0, none, none⟩
        150 7 = .ok
        ⟨1, "Trip", none, 100, 150, none, "travel", .completed, 0, some 7, none⟩) ∧
    (⟨1, "Trip", none, 100, 150, none, "travel", .completed, 0, some 7, none⟩ :
        FinancialGoal).status =
      if (GoalStatus.active = GoalStatus.active ∧ (100 : ℚ) ≤ 150) then .completed
      else GoalStatus.active := by
  refine ⟨by rfl, ?_⟩
  exact goal_status_auto_completion
    ⟨1, "Trip", none, 100, 20, none, "travel", .active, 0, none, none⟩ 150 7
    ⟨1, "Trip", none, 100, 150, none, "travel", .completed, 0, some 7, none⟩
    (Or.inl (by rfl))


/-- C2: each entity constructor succeeds exactly when the declared invariants
of its arguments hold (positive user id, positive amount and target amount,
non-blank required strings, enumerated type, non-negative goal current amount,
valid dates).  The `Except` result carries an entity only in the `ok` case, so
construction is all-or-nothing by construction of the embedding. -/
theorem entity_construction_all_or_nothing :
    (∀ (userId : Int) (amount : ℚ) (type category description : String)
        (date : JSDate) (account : Option String) (tags : Option (List String))
        (metadata : Option Metadata) (createdAt : Int) (updatedAt : Option Int)
        (id : Option Nat),
      (mkFinancialTransaction userId amount type category description date
          account tags metadata createdAt updatedAt id).isOk = true ↔
        (0 < userId ∧ 0 < amount ∧ type ∈ validTransactionTypes ∧
         jsTrim category ≠ "" ∧ jsTrim description ≠ "" ∧ date.isSome = true)) ∧
    (∀ (userId : Int) (name type : String) (bank : Option String)
        (balance : Option ℚ) (isActive : Bool) (createdAt : Int)
        (updatedAt : Option Int) (id : Option Nat),
      (mkFinancialAccount userId name type bank balance isActive createdAt
          updatedAt id).isOk = true ↔
        (0 < userId ∧ jsTrim name ≠ "" ∧ type ∈ validAccountTypes)) ∧
    (∀ (userId : Int) (title : String) (targetAmount currentAmount : ℚ)
        (category : String) (description : Option String)
        (targetDate : Option JSDate) (status : GoalStatus) (createdAt : Int)
        (updatedAt : Option Int) (id : Option Nat),
      (mkFinancialGoal userId title targetAmount currentAmount category
          description targetDate status createdAt updatedAt id).isOk = true ↔
        (0 < userId ∧ jsTrim title ≠ "" ∧ 0 < targetAmount ∧ 0 ≤ currentAmount ∧
         jsTrim category ≠ "" ∧ targetDate ≠ some none)) ∧
    (∀ (userId : Int) (text : String) (createdAt : Int)
        (audioDuration : Option ℚ) (metadata : Option Metadata)
        (id : Option Nat),
      (mkTranscription userId text createdAt audioDuration metadata id).isOk
          = true ↔ (jsTrim text ≠ "" ∧ 0 < userId)) := by
  refine ⟨?_, ?_, ?_, ?_⟩
  · intro u a ty cat d dt acc tg md ca ua i
    unfold mkFinancialTransaction
    split_ifs with h1 h2 h3 h4 h5 <;>
      cases dt <;>
      simp_all [isBlankStr, beq_iff_eq, ← not_lt]
  · intro u nm ty bk bal act ca ua i
    unfold mkFinancialAccount
    split_ifs with h1 h2 h3 <;>
      simp_all [isBlankStr, beq_iff_eq, ← not_lt]
  · intro u t ta cu cat d td st ca ua i
    unfold mkFinancialGoal
    split_ifs with h1 h2 h3 h4 h5 h6 <;>
      simp_all [isBlankStr, beq_iff_eq, ← not_lt]
  · intro u tx ca ad md i
    unfold mkTranscription
    split_ifs with h1 h2 <;>
      simp_all [isBlankStr, beq_iff_eq, ← not_lt]

/-- Witness for C2: a concrete valid transaction constructs successfully and a
concrete invalid one (zero amount) does not, both via the theorem. -/
theorem entity_construction_all_or_nothing_witness :
    (mkFinancialTransaction 1 50 "expense" "food" "lunch" (some 0) none none
        none 0 none none).isOk = true ∧
    (mkFinancialTransaction 1 0 "expense" "food" "lunch" (some 0) none none
        none 0 none none).isOk = false := by
  constructor
  · exact (entity_construction_all_or_nothing.1 1 50 "expense" "food" "lunch"
      (some 0) none none none 0 none none).mpr
      ⟨by decide, by norm_num, by decide, by decide, by decide, by decide⟩
  · have h := (entity_construction_all_or_nothing.1 1 0 "expense" "food" "lunch"
      (some 0) none none none 0 none none)
    by_contra hc
    simp only [Bool.not_eq_false] at hc
    have h0 := (h.mp hc).2.1
    norm_num at h0

/-- C8 counterexample: the FinancialAccount constructor accepts a negative
balance (its `validateBalance` only rejects `NaN`), and depositing into such an
account can leave the balance negative, so a successful deposit does not
guarantee a non-negative resulting balance. -/
theorem deposit_negative_balance_counterexample :
    (mkFinancialAccount 1 "Wallet" "cash" none (some (-100)) true 0 none none
        = .ok ⟨1, "Wallet", "cash", none, some (-100), true, 0, none, none⟩) ∧
    (FinancialAccount.deposit
        ⟨1, "Wallet", "cash", none, some (-100), true, 0, none, none⟩ 50 7
      = .ok ⟨1, "Wallet", "cash", none, some (-50), true, 0, some 7, none⟩) ∧
    ((-50 : ℚ) < 0) := by
  refine ⟨by decide, by norm_num [FinancialAccount.deposit], by norm_num⟩

/-- C8 amended: deposit and withdraw reject non-positive amounts; withdraw
additionally rejects an undefined balance and insufficient funds, and a
successful withdraw leaves a non-negative balance; a successful deposit leaves
a positive balance provided the prior balance was undefined or non-negative
(an account constructed with a negative balance can stay negative). -/
theorem balance_mutation_amended (a : FinancialAccount) (amount : ℚ) (now : Int) :
    ((a.deposit amount now).isOk = false ↔ amount ≤ 0) ∧
    ((a.withdraw amount now).isOk = false ↔
      (amount ≤ 0 ∨ a.balance = none ∨ ∃ b, a.balance = some b ∧ b < amount)) ∧
    (∀ a', a.withdraw amount now = .ok a' →
      ∃ b', a'.balance = some b' ∧ 0 ≤ b') ∧
    (∀ a', a.deposit amount now = .ok a' →
      (∀ b, a.balance = some b → 0 ≤ b) →
      ∃ b', a'.balance = some b' ∧ 0 < b') := by
  refine ⟨?_, ?_, ?_, ?_⟩
  · unfold FinancialAccount.deposit
    split_ifs with h1
    · simp [h1]
    · cases hb : a.balance <;> simp [h1]
  · unfold FinancialAccount.withdraw
    split_ifs with h1
    · simp [h1]
    · cases hb : a.balance with
      | none => simp [hb, h1]
      | some b =>
          by_cases h2 : b < amount
          · simp [hb, h1, h2]
          · simp [hb, h1, h2, not_lt.mp h2]
  · intro a' h
    unfold FinancialAccount.withdraw at h
    split_ifs at h with h1
    cases hb : a.balance with
    | none => simp [hb] at h
    | some b =>
        simp only [hb] at h
        split_ifs at h with h2
        cases h
        exact ⟨b - amount, rfl, by linarith [not_lt.mp h2]⟩
  · intro a' h hnn
    unfold FinancialAccount.deposit at h
    split_ifs at h with h1
    cases hb : a.balance with
    | none =>
        simp only [hb] at h
        cases h
        exact ⟨amount, rfl, lt_of_not_le h1⟩
    | some b =>
        simp only [hb] at h
        cases h
        refine ⟨b + amount, rfl, ?_⟩
        have hb0 := hnn b hb
        have ha0 := lt_of_not_le h1
        linarith

/-- Witness for C8 amended: withdrawing 30 from a concrete account with
balance 100 succeeds and the theorem yields a non-negative result there. -/
theorem balance_mutation_amended_witness :
    ∃ b', (FinancialAccount.withdraw
        ⟨1, "Wallet", "cash", none, some 100, true, 0, none, none⟩ 30 7
        = .ok ⟨1, "Wallet", "cash", none, some 70, true, 0, some 7, none⟩) ∧
      ((⟨1, "Wallet", "cash", none, some 70, true, 0, some 7, none⟩ :
          FinancialAccount).balance = some b' ∧ 0 ≤ b') := by
  obtain ⟨b', hb, hnn⟩ :=
    (balance_mutation_amended
      ⟨1, "Wallet", "cash", none, some 100, true, 0, none, none⟩ 30 7).2.2.1
      ⟨1, "Wallet", "cash", none, some 70, true, 0, some 7, none⟩
      (by norm_num [FinancialAccount.withdraw])
  exact ⟨b', by norm_num [FinancialAccount.withdraw], hb, hnn⟩

/-- ReachableGoal characterises every FinancialGoal state obtainable in the
program: constructed successfully, then mutated by any sequence of the
entity's methods (failed method calls leave no new state). -/
inductive ReachableGoal : FinancialGoal → Prop
  | constructed {userId : Int} {title : String} {targetAmount currentAmount : ℚ}
      {category : String} {description : Option String}
      {targetDate : Option JSDate} {status : GoalStatus} {createdAt : Int}
      {updatedAt : Option Int} {id : Option Nat} {g : FinancialGoal} :
      mkFinancialGoal userId title targetAmount currentAmount category
        description targetDate status createdAt updatedAt id = .ok g →
      ReachableGoal g
  | updatedTitle {g : FinancialGoal} {s : String} {now : Int} {g' : FinancialGoal} :
      ReachableGoal g → g.updateTitle s now = .ok g' → ReachableGoal g'
  | updatedDescription {g : FinancialGoal} {d : Option String} {now : Int} :
      ReachableGoal g → ReachableGoal (g.updateDescription d now)
  | updatedTargetAmount {g : FinancialGoal} {x : ℚ} {now : Int} {g' : FinancialGoal} :
      ReachableGoal g → g.updateTargetAmount x now = .ok g' → ReachableGoal g'
  | updatedCurrentAmount {g : FinancialGoal} {x : ℚ} {now : Int} {g' : FinancialGoal} :
      ReachableGoal g → g.updateCurrentAmount x now = .ok g' → ReachableGoal g'
  | addedProgress {g : FinancialGoal} {x : ℚ} {now : Int} {g' : FinancialGoal} :
      ReachableGoal g → g.addProgress x now = .ok g' → ReachableGoal g'
  | updatedTargetDate {g : FinancialGoal} {td : Option JSDate} {now : Int}
      {g' : FinancialGoal} :
      ReachableGoal g → g.updateTargetDate td now = .ok g' → ReachableGoal g'
  | updatedCategory {g : FinancialGoal} {s : String} {now : Int} {g' : FinancialGoal} :
      ReachableGoal g → g.updateCategory s now = .ok g' → ReachableGoal g'
  | markedActive {g : FinancialGoal} {now : Int} :
      ReachableGoal g → ReachableGoal (g.markAsActive now)
  | markedCompleted {g : FinancialGoal} {now : Int} :
      ReachableGoal g → ReachableGoal (g.markAsCompleted now)
  | markedPaused {g : FinancialGoal} {now : Int} :
      ReachableGoal g → ReachableGoal (g.markAsPaused now)
  | markedCancelled {g : FinancialGoal} {now : Int} :
      ReachableGoal g → ReachableGoal (g.markAsCancelled now)

/-- C9: every reachable FinancialGoal has a positive target amount and a
non-negative current amount, so the progress-percentage division is by a
nonzero (positive) quantity and its value is non-negative. -/
theorem reachable_goal_invariant (g : FinancialGoal) (h : ReachableGoal g) :
    0 < g.targetAmount ∧ 0 ≤ g.currentAmount ∧ 0 ≤ g.getProgressPercentage := by
  have key : 0 < g.targetAmount ∧ 0 ≤ g.currentAmount := by
    induction h with
    | constructed hmk =>
        unfold mkFinancialGoal at hmk
        split_ifs at hmk with h1 h2 h3 h4 h5 h6
        cases hmk
        exact ⟨lt_of_not_le h3, not_lt.mp h4⟩
    | updatedTitle hr heq ih =>
        unfold FinancialGoal.updateTitle at heq
        split_ifs at heq
        cases heq
        exact ih
    | updatedDescription hr ih => exact ih
    | updatedTargetAmount hr heq ih =>
        unfold FinancialGoal.updateTargetAmount at heq
        split_ifs at heq with hx hs <;> (cases heq; exact ⟨lt_of_not_le hx, ih.2⟩)
    | updatedCurrentAmount hr heq ih =>
        unfold FinancialGoal.updateCurrentAmount at heq
        split_ifs at heq with hx hs <;> (cases heq; exact ⟨ih.1, not_lt.mp hx⟩)
    | addedProgress hr heq ih =>
        unfold FinancialGoal.addProgress at heq
        split_ifs at heq with hx hs <;>
          (cases heq
           refine ⟨ih.1, ?_⟩
           have h0 := ih.2
           have h1 := lt_of_not_le hx
           show 0 ≤ _ + _
           linarith)
    | updatedTargetDate hr heq ih =>
        unfold FinancialGoal.updateTargetDate at heq
        split_ifs at heq
        cases heq
        exact ih
    | updatedCategory hr heq ih =>
        unfold FinancialGoal.updateCategory at heq
        split_ifs at heq
        cases heq
        exact ih
    | markedActive hr ih => exact ih
    | markedCompleted hr ih => exact ih
    | markedPaused hr ih => exact ih
    | markedCancelled hr ih => exact ih
  refine ⟨key.1, key.2, ?_⟩
  unfold FinancialGoal.getProgressPercentage
  have h1 := key.1
  have h2 := key.2
  positivity

/-- Witness for C9: a freshly constructed concrete goal is reachable and the
theorem yields its invariant. -/
theorem reachable_goal_invariant_witness :
    0 < (⟨1, "Trip", none, 100, 20, none, "travel", .active, 0, none, none⟩ :
        FinancialGoal).targetAmount ∧
    0 ≤ (⟨1, "Trip", none, 100, 20, none, "travel", .active, 0, none, none⟩ :
        FinancialGoal).currentAmount ∧
    0 ≤ (⟨1, "Trip", none, 100, 20, none, "travel", .active, 0, none, none⟩ :
        FinancialGoal).getProgressPercentage :=
  reachable_goal_invariant
    ⟨1, "Trip", none, 100, 20, none, "travel", .active, 0, none, none⟩
    (ReachableGoal.constructed
      (show mkFinancialGoal 1 "Trip" 100 20 "travel" none none .active 0 none none
        = .ok ⟨1, "Trip", none, 100, 20, none, "travel", .active, 0, none, none⟩
        by decide))

/-- RawTransaction is one loosely-typed transaction item of the extraction
port response (the upstream AI output is untyped, so every field may be
missing). -/
structure RawTransaction where
  amount : Option ℚ
  type : Option String
  category : Option String
  description : Option String
  date : Option JSDate
  account : Option String
  tags : Option (List String)
deriving DecidableEq, Repr

/-- RawAccount is one loosely-typed account item of the extraction port
response. -/
structure RawAccount where
  name : Option String
  type : Option String
  bank : Option String
  balance : Option ℚ
deriving DecidableEq, Repr

/-- RawGoal is one loosely-typed goal item of the extraction port response. -/
structure RawGoal where
  title : Option String
  targetAmount : Option ℚ
  currentAmount : Option ℚ
  category : Option String
  description : Option String
  targetDate : Option JSDate
deriving DecidableEq, Repr

/-- RawExtractedData is the full extraction port response consumed by
ExtractFinancialDataUseCase.execute. -/
structure RawExtractedData where
  transactions : List RawTransaction
  accounts : List RawAccount
  goals : List RawGoal
  notes : Option (List String)
  confidence : ℚ
deriving DecidableEq, Repr

/-- Presence check on a raw transaction, as written in the source:
`transaction.amount && transaction.type && transaction.category &&
transaction.description` — plain JS truthiness on every field, so an amount
of `0` or an empty string fails the check. -/
def rawTransactionPresent (t : RawTransaction) : Bool :=
  optNumTruthy t.amount && optStrTruthy t.type && optStrTruthy t.category &&
    optStrTruthy t.description

/-- Presence check on a raw account: `account.name && account.type`. -/
def rawAccountPresent (a : RawAccount) : Bool :=
  optStrTruthy a.name && optStrTruthy a.type

/-- Presence check on a raw goal: `goal.title && goal.targetAmount !==
undefined && goal.currentAmount !== undefined && goal.category` — the two
amounts are only tested for definedness, so `0` passes. -/
def rawGoalPresent (g : RawGoal) : Bool :=
  optStrTruthy g.title && g.targetAmount.isSome && g.currentAmount.isSome &&
    optStrTruthy g.category

/-- Attempted entity construction for one raw transaction that passed the
presence check; `transaction.date || new Date()` substitutes the current time
for a missing date (a present `Date` object is truthy even when invalid). -/
def buildRawTransaction (userId : Int) (now : Int) (t : RawTransaction) :
    Except String FinancialTransaction :=
  mkFinancialTransaction userId (t.amount.getD 0) (t.type.getD "")
    (t.category.getD "") (t.description.getD "")
    (match t.date with | none => some now | some jd => jd)
    t.account t.tags none now none none

/-- Attempted entity construction for one raw account that passed the presence
check. -/
def buildRawAccount (userId : Int) (now : Int) (a : RawAccount) :
    Except String FinancialAccount :=
  mkFinancialAccount userId (a.name.getD "") (a.type.getD "") a.bank a.balance
    true now none none

/-- Attempted entity construction for one raw goal that passed the presence
check. -/
def buildRawGoal (userId : Int) (now : Int) (g : RawGoal) :
    Except String FinancialGoal :=
  mkFinancialGoal userId (g.title.getD "") (g.targetAmount.getD 0)
    (g.currentAmount.getD 0) (g.category.getD "") g.description g.targetDate
    .active now none none

/-- Transaction loop of ExtractFinancialDataUseCase.execute: items failing the
truthiness presence check are skipped silently, items whose entity
construction throws are skipped with a warning log, successful items are
collected in order.  The second component is the list of warning messages. -/
def mapTransactions (userId : Int) (now : Int) :
    List RawTransaction → List FinancialTransaction × List String
  | [] => ([], [])
  | t :: ts =>
    let rest := mapTransactions userId now ts
    if rawTransactionPresent t then
      match buildRawTransaction userId now t with
      | .ok e => (e :: rest.1, rest.2)
      | .error _ => (rest.1, "Error mapping transaction entity" :: rest.2)
    else rest

/-- Account loop of ExtractFinancialDataUseCase.execute. -/
def mapAccounts (userId : Int) (now : Int) :
    List RawAccount → List FinancialAccount × List String
  | [] => ([], [])
  | a :: as_ =>
    let rest := mapAccounts userId now as_
    if rawAccountPresent a then
      match buildRawAccount userId now a with
      | .ok e => (e :: rest.1, rest.2)
      | .error _ => (rest.1, "Error mapping account entity" :: rest.2)
    else rest

/-- Goal loop of ExtractFinancialDataUseCase.execute. -/
def mapGoals (userId : Int) (now : Int) :
    List RawGoal → List FinancialGoal × List String
  | [] => ([], [])
  | g :: gs =>
    let rest := mapGoals userId now gs
    if rawGoalPresent g then
      match buildRawGoal userId now g with
      | .ok e => (e :: rest.1, rest.2)
      | .error _ => (rest.1, "Error mapping goal entity" :: rest.2)
    else rest

/-- ExtractedFinancialData mirrors ExtractedFinancialDataDTO: the validated
entities plus notes, confidence, user and timestamp. -/
structure ExtractedFinancialData where
  transactions : List FinancialTransaction
  accounts : List FinancialAccount
  goals : List FinancialGoal
  notes : List String
  confidence : ℚ
  userId : Int
  timestamp : Int
deriving DecidableEq, Repr

/-- Mapping phase of ExtractFinancialDataUseCase.execute on a port response
that arrived successfully: a total function (no raw item can make it throw).
`extractedData.notes || []` falls back to the empty list only when notes are
absent (a present array is truthy even when empty).  The second component
collects the warning logs of the three loops. -/
def extractExecute (userId : Int) (timestamp now : Int) (raw : RawExtractedData) :
    ExtractedFinancialData × List String :=
  let ts := mapTransactions userId now raw.transactions
  let as_ := mapAccounts userId now raw.accounts
  let gs := mapGoals userId now raw.goals
  (⟨ts.1, as_.1, gs.1, raw.notes.getD [], raw.confidence, userId, timestamp⟩,
    ts.2 ++ as_.2 ++ gs.2)

/-- Helper for C3: the transaction loop keeps exactly the items that pass the
presence check and construct successfully, in order. -/
theorem mapTransactions_entities (u now : Int) (ts : List RawTransaction) :
    (mapTransactions u now ts).1 = ts.filterMap (fun t =>
      if rawTransactionPresent t then (buildRawTransaction u now t).toOption
      else none) := by
  induction ts with
  | nil => rfl
  | cons t ts ih =>
      simp only [mapTransactions, List.filterMap_cons]
      by_cases hp : rawTransactionPresent t
      · cases hb : buildRawTransaction u now t <;>
          simp [hp, hb, ih, Except.toOption]
      · simp [hp, ih]

/-- Helper for C3: the account loop keeps exactly the items that pass the
presence check and construct successfully, in order. -/
theorem mapAccounts_entities (u now : Int) (as_ : List RawAccount) :
    (mapAccounts u now as_).1 = as_.filterMap (fun a =>
      if rawAccountPresent a then (buildRawAccount u now a).toOption
      else none) := by
  induction as_ with
  | nil => rfl
  | cons a as_ ih =>
      simp only [mapAccounts, List.filterMap_cons]
      by_cases hp : rawAccountPresent a
      · cases hb : buildRawAccount u now a <;>
          simp [hp, hb, ih, Except.toOption]
      · simp [hp, ih]

/-- Helper for C3: the goal loop keeps exactly the items that pass the
presence check and construct successfully, in order. -/
theorem mapGoals_entities (u now : Int) (gs : List RawGoal) :
    (mapGoals u now gs).1 = gs.filterMap (fun g =>
      if rawGoalPresent g then (buildRawGoal u now g).toOption
      else none) := by
  induction gs with
  | nil => rfl
  | cons g gs ih =>
      simp only [mapGoals, List.filterMap_cons]
      by_cases hp : rawGoalPresent g
      · cases hb : buildRawGoal u now g <;>
          simp [hp, hb, ih, Except.toOption]
      · simp [hp, ih]

/-- C3: the extraction mapping phase is a total function of the port response
(no malformed item makes it throw), its result contains exactly the entities
built from the items that pass the presence check and construct successfully,
and a concrete batch of one invalid transaction (negative amount) and two
valid ones yields exactly the two valid transaction entities. -/
theorem extraction_skips_invalid_items :
    (∀ (u ts now : Int) (raw : RawExtractedData),
      (extractExecute u ts now raw).1.transactions =
        raw.transactions.filterMap (fun t =>
          if rawTransactionPresent t then (buildRawTransaction u now t).toOption
          else none) ∧
      (extractExecute u ts now raw).1.accounts =
        raw.accounts.filterMap (fun a =>
          if rawAccountPresent a then (buildRawAccount u now a).toOption
          else none) ∧
      (extractExecute u ts now raw).1.goals =
        raw.goals.filterMap (fun g =>
          if rawGoalPresent g then (buildRawGoal u now g).toOption
          else none)) ∧
    (extractExecute 1 5 9
        ⟨[⟨some (-5), some "expense", some "food", some "snack", none, none, none⟩,
          ⟨some 50, some "expense", some "food", some "lunch", some (some 10),
            none, none⟩,
          ⟨some 2000, some "income", some "salary", some "pay", none, none, none⟩],
         [], [], none, 1⟩).1.transactions =
      [⟨1, 50, "expense", "food", "lunch", 10, none, none, none, 9, none, none⟩,
       ⟨1, 2000, "income", "salary", "pay", 9, none, none, none, 9, none, none⟩] := by
  constructor
  · intro u ts now raw
    exact ⟨mapTransactions_entities u now raw.transactions,
           mapAccounts_entities u now raw.accounts,
           mapGoals_entities u now raw.goals⟩
  · decide

/-- C10: a raw transaction whose amount is exactly 0 or whose type, category
or description is the empty string fails the truthiness presence check, so it
contributes neither an entity nor a warning to the batch; a raw goal whose
amounts are defined (even 0) passes its definedness check, so it contributes
exactly one outcome (an entity or a validation warning). -/
theorem extraction_truthiness_presence (u now : Int) (t : RawTransaction)
    (ts : List RawTransaction) (g : RawGoal) (gs : List RawGoal)
    (ht : t.amount = some 0 ∨ t.type = some "" ∨ t.category = some "" ∨
          t.description = some "")
    (hg1 : optStrTruthy g.title = true) (hg2 : g.targetAmount.isSome = true)
    (hg3 : g.currentAmount = some 0) (hg4 : optStrTruthy g.category = true) :
    mapTransactions u now (t :: ts) = mapTransactions u now ts ∧
    ((mapGoals u now (g :: gs)).1.length + (mapGoals u now (g :: gs)).2.length
      = 1 + ((mapGoals u now gs).1.length + (mapGoals u now gs).2.length)) := by
  constructor
  · have hp : rawTransactionPresent t = false := by
      rcases ht with h | h | h | h <;>
        simp [rawTransactionPresent, optNumTruthy, optStrTruthy, h]
    simp [mapTransactions, hp]
  · have hp : rawGoalPresent g = true := by
      simp [rawGoalPresent, hg1, hg2, hg3, hg4]
    cases hb : buildRawGoal u now g <;> simp [mapGoals, hp, hb] <;> omega

/-- Witness for C10: a concrete zero-amount transaction is silently dropped
and a concrete zero-progress goal still produces exactly one outcome. -/
theorem extraction_truthiness_presence_witness :
    mapTransactions 1 9
        [⟨some 0, some "expense", some "food", some "snack", none, none, none⟩]
      = mapTransactions 1 9 ([] : List RawTransaction) ∧
    ((mapGoals 1 9 [⟨some "Trip", some 100, some 0, some "travel", none, none⟩]).1.length
      + (mapGoals 1 9 [⟨some "Trip", some 100, some 0, some "travel", none, none⟩]).2.length
      = 1 + ((mapGoals 1 9 ([] : List RawGoal)).1.length
          + (mapGoals 1 9 ([] : List RawGoal)).2.length)) :=
  extraction_truthiness_presence 1 9
    ⟨some 0, some "expense", some "food", some "snack", none, none, none⟩ []
    ⟨some "Trip", some 100, some 0, some "travel", none, none⟩ []
    (Or.inl rfl) (by decide) (by decide) rfl (by decide)

/-- storeOptStr models the write-side coercion `x || null` on an optional
string column: a present empty string is falsy and is stored as NULL. -/
def storeOptStr : Option String → Option String
  | none => none
  | some s => if s = "" then none else some s

/-- storeOptNum models `x || null` on an optional numeric column: a present 0
is falsy and is stored as NULL. -/
def storeOptNum : Option ℚ → Option ℚ
  | none => none
  | some q => if q = 0 then none else some q

/-- AccountRow is one row of the financial_accounts table as the account
repository addresses it (the shipped migration omits the is_active column;
spec section 6 and the repository agree on this shape, so the repository's
expected schema is modelled).  Column values are stored exactly; NUMERIC
quantisation and DATE truncation belong to the out-of-scope engine. -/
structure AccountRow where
  id : Nat
  user_id : Int
  name : String
  type : String
  bank : Option String
  balance : Option ℚ
  is_active : Bool
  created_at : Int
  updated_at : Option Int
deriving DecidableEq, Repr

/-- AccountDB is the financial_accounts table plus its serial-id counter. -/
structure AccountDB where
  rows : List AccountRow
  nextId : Nat
deriving DecidableEq, Repr

/-- Read-side row-to-entity mapping of the account repository.  The balance
read guard `result.balance ? parseFloat(result.balance) : undefined` tests a
driver-returned string, and a stored numeric is always a nonempty string, so
the guard is exactly a non-NULL test and the mapping is the identity on the
optional column value. -/
def accountRowToEntity (r : AccountRow) : FinancialAccount :=
  ⟨r.user_id, r.name, r.type, r.bank, r.balance, r.is_active, r.created_at,
   r.updated_at, some r.id⟩

/-- Save of PostgresFinancialAccountRepository: inserts a row built with the
`|| null` coercions on bank and balance; created_at is passed through and
updated_at takes the column default (the current time).  Returns the entity
mapped back from the inserted row. -/
def accountRepoSave (db : AccountDB) (a : FinancialAccount) (now : Int) :
    AccountDB × FinancialAccount :=
  let row : AccountRow :=
    ⟨db.nextId, a.userId, a.name, a.type, storeOptStr a.bank,
     storeOptNum a.balance, a.isActive, a.createdAt, some now⟩
  (⟨db.rows ++ [row], db.nextId + 1⟩, accountRowToEntity row)

/-- findById of PostgresFinancialAccountRepository. -/
def accountFindById (db : AccountDB) (i : Nat) : Option FinancialAccount :=
  (db.rows.find? (fun r => r.id == i)).map accountRowToEntity

/-- findByUserIdAndName of PostgresFinancialAccountRepository: `.first()` on
the (user_id, name) filter without an ORDER BY; the row order of the model
list stands for the engine's unspecified choice. -/
def accountFindByUserIdAndName (db : AccountDB) (uid : Int) (nm : String) :
    Option FinancialAccount :=
  (db.rows.find? (fun r => r.user_id == uid && r.name == nm)).map
    accountRowToEntity

/-- Column rewrite applied by the account repository's update to the matching
row: name, type, bank, balance (with the `|| null` coercions) and is_active
come from the entity; the updated_at trigger stamps the current time. -/
def updatedAccountRow (r0 : AccountRow) (a : FinancialAccount) (now : Int) :
    AccountRow :=
  { r0 with
      name := a.name, type := a.type, bank := storeOptStr a.bank,
      balance := storeOptNum a.balance, is_active := a.isActive,
      updated_at := some now }

/-- Update of PostgresFinancialAccountRepository: requires an id, fails with a
not-found error when no row carries it, and otherwise rewrites the matching
row in place. -/
def accountRepoUpdate (db : AccountDB) (a : FinancialAccount) (now : Int) :
    Except String (AccountDB × FinancialAccount) :=
  match a.id with
  | none => .error "Cannot update financial account without ID"
  | some i =>
    match db.rows.find? (fun r => r.id == i) with
    | none => .error ("Financial account with ID " ++ toString i ++ " not found")
    | some r0 =>
      .ok (⟨db.rows.map (fun r => if r.id = i then updatedAccountRow r0 a now
              else r), db.nextId⟩,
           accountRowToEntity (updatedAccountRow r0 a now))

/-- Account-loop body of SaveFinancialDataUseCase.execute for one extracted
account: look up by (user, name); when found, update the balance in place
when the incoming balance is defined and differs, otherwise reuse the
existing identity; when absent, insert.  Repository failures are caught and
logged as warnings (third component). -/
def saveAccountStep (db : AccountDB) (acc : FinancialAccount) (now : Int) :
    AccountDB × List Nat × List String :=
  match accountFindByUserIdAndName db acc.userId acc.name with
  | some existing =>
      if acc.balance.isSome ∧ existing.balance ≠ acc.balance then
        match accountRepoUpdate db (existing.updateBalance acc.balance now) now with
        | .ok (db', e) =>
            (db', (match e.id with | some i => [i] | none => []), [])
        | .error _ => (db, [], ["Error saving account"])
      else
        (db, (match existing.id with | some i => [i] | none => []), [])
  | none =>
      let saved := accountRepoSave db acc now
      (saved.1, (match saved.2.id with | some i => [i] | none => []), [])


/-- Helper for C4: behaviour of the account-loop body when the (user, name)
lookup finds an existing account. -/
theorem saveAccountStep_found (db : AccountDB) (acc : FinancialAccount)
    (now : Int) (ex : FinancialAccount)
    (hex : accountFindByUserIdAndName db acc.userId acc.name = some ex) :
    saveAccountStep db acc now =
      if acc.balance.isSome ∧ ex.balance ≠ acc.balance then
        match accountRepoUpdate db (ex.updateBalance acc.balance now) now with
        | .ok (db', e) =>
            (db', (match e.id with | some i => [i] | none => []), [])
        | .error _ => (db, [], ["Error saving account"])
      else (db, (match ex.id with | some i => [i] | none => []), []) := by
  unfold saveAccountStep
  rw [hex]

/-- Helper for C4: behaviour of the account-loop body when the (user, name)
lookup finds nothing. -/
theorem saveAccountStep_notfound (db : AccountDB) (acc : FinancialAccount)
    (now : Int)
    (hex : accountFindByUserIdAndName db acc.userId acc.name = none) :
    saveAccountStep db acc now =
      (⟨db.rows ++ [⟨db.nextId, acc.userId, acc.name, acc.type,
          storeOptStr acc.bank, storeOptNum acc.balance, acc.isActive,
          acc.createdAt, some now⟩], db.nextId + 1⟩, [db.nextId], []) := by
  unfold saveAccountStep
  rw [hex]
  rfl

/-- Helper for C4: behaviour of the repository update when the id exists. -/
theorem accountRepoUpdate_found (db : AccountDB) (a : FinancialAccount)
    (now : Int) (i : Nat) (r0 : AccountRow)
    (hid : a.id = some i)
    (hfind : db.rows.find? (fun r => r.id == i) = some r0) :
    accountRepoUpdate db a now = .ok
      (⟨db.rows.map (fun r => if r.id = i then updatedAccountRow r0 a now
          else r), db.nextId⟩,
       accountRowToEntity (updatedAccountRow r0 a now)) := by
  unfold accountRepoUpdate
  split
  · next h => rw [h] at hid; exact absurd hid (by simp)
  · next j h =>
      rw [h] at hid
      have hj : j = i := by injection hid
      subst hj
      split
      · next h2 => rw [hfind] at h2; exact absurd h2 (by simp)
      · next r0a h2 =>
          rw [hfind] at h2
          have hr : r0 = r0a := by injection h2
          subst hr
          rfl

/-- C4: the account-saving loop de-duplicates by (user, name).  When the
lookup finds an existing account, no row is inserted: when the incoming
balance is defined and differs from the existing one, exactly the existing
row is rewritten (its balance column receiving the incoming balance through
the adapter's `|| null` coercion) and its identity is returned; otherwise the
table is untouched and the existing identity is reused.  When the lookup
finds nothing, a single new row is inserted and its fresh identity returned. -/
theorem save_account_dedup (db : AccountDB) (acc : FinancialAccount) (now : Int) :
    (∀ ex, accountFindByUserIdAndName db acc.userId acc.name = some ex →
      (saveAccountStep db acc now).1.rows.length = db.rows.length ∧
      (acc.balance.isSome ∧ ex.balance ≠ acc.balance →
        ∃ i r1, ex.id = some i ∧ r1.id = i ∧
          r1.balance = storeOptNum acc.balance ∧
          (saveAccountStep db acc now).1.rows
            = db.rows.map (fun r => if r.id = i then r1 else r) ∧
          (saveAccountStep db acc now).2.1 = [i]) ∧
      (¬(acc.balance.isSome ∧ ex.balance ≠ acc.balance) →
        (saveAccountStep db acc now).1 = db ∧
        ∃ i, ex.id = some i ∧ (saveAccountStep db acc now).2.1 = [i])) ∧
    (accountFindByUserIdAndName db acc.userId acc.name = none →
      (saveAccountStep db acc now).1.rows
        = db.rows ++ [⟨db.nextId, acc.userId, acc.name, acc.type,
            storeOptStr acc.bank, storeOptNum acc.balance, acc.isActive,
            acc.createdAt, some now⟩] ∧
      (saveAccountStep db acc now).2.1 = [db.nextId]) := by
  constructor
  · intro ex hex
    have hmap := hex
    unfold accountFindByUserIdAndName at hmap
    cases hfind : db.rows.find?
        (fun r => r.user_id == acc.userId && r.name == acc.name) with
    | none => rw [hfind] at hmap; exact absurd hmap (by simp)
    | some rN =>
      rw [hfind] at hmap
      simp only [Option.map_some'] at hmap
      have hexEq : accountRowToEntity rN = ex := Option.some.inj hmap
      subst hexEq
      by_cases hc : acc.balance.isSome ∧
          (accountRowToEntity rN).balance ≠ acc.balance
      · have hmem : rN ∈ db.rows := List.mem_of_find?_eq_some hfind
        cases hfind2 : db.rows.find? (fun r => r.id == rN.id) with
        | none =>
            exfalso
            have := List.find?_eq_none.mp hfind2 rN hmem
            simp at this
        | some r0 =>
          have hr0 : r0.id = rN.id := by
            have := List.find?_some hfind2
            simpa using this
          have hstep : saveAccountStep db acc now =
              (⟨db.rows.map (fun r => if r.id = rN.id then
                  updatedAccountRow r0
                    ((accountRowToEntity rN).updateBalance acc.balance now) now
                  else r), db.nextId⟩,
               [r0.id], []) := by
            rw [saveAccountStep_found db acc now _ hex, if_pos hc,
                accountRepoUpdate_found db _ now rN.id r0 rfl hfind2]
            rfl
          refine ⟨?_, ?_, ?_⟩
          · rw [hstep]
            exact List.length_map _ _
          · intro _
            refine ⟨rN.id,
              updatedAccountRow r0
                ((accountRowToEntity rN).updateBalance acc.balance now) now,
              rfl, hr0, rfl, ?_, ?_⟩
            · rw [hstep]
            · rw [hstep, hr0]
          · intro hnc
            exact absurd hc hnc
      · have hstep : saveAccountStep db acc now = (db, [rN.id], []) := by
          rw [saveAccountStep_found db acc now _ hex, if_neg hc]
          rfl
        refine ⟨?_, ?_, ?_⟩
        · rw [hstep]
        · intro hc2
          exact absurd hc2 hc
        · intro _
          exact ⟨by rw [hstep], rN.id, rfl, by rw [hstep]⟩
  · intro hex
    rw [saveAccountStep_notfound db acc now hex]
    exact ⟨rfl, rfl⟩

/-- Witness for C4: a concrete incoming account whose (user, name) matches an
existing row with a different balance leaves the row count unchanged. -/
theorem save_account_dedup_witness :
    (saveAccountStep
        ⟨[⟨1, 7, "Main", "checking", none, some 10, true, 0, none⟩], 2⟩
        ⟨7, "Main", "checking", none, some 25, true, 3, none, none⟩ 5).1.rows.length
      = (⟨[⟨1, 7, "Main", "checking", none, some 10, true, 0, none⟩], 2⟩ :
          AccountDB).rows.length :=
  ((save_account_dedup
      ⟨[⟨1, 7, "Main", "checking", none, some 10, true, 0, none⟩], 2⟩
      ⟨7, "Main", "checking", none, some 25, true, 3, none, none⟩ 5).1
    ⟨7, "Main", "checking", none, some 10, true, 0, none, some 1⟩
    (by decide)).1

/-- TransactionRow is one row of the financial_transactions table.  Column
values are stored exactly; NUMERIC quantisation and the day truncation of the
DATE column belong to the out-of-scope engine.  The metadata column holds the
JSON text of the object; stringify/parse is the identity at this value level
and the stored text of an object is nonempty. -/
structure TransactionRow where
  id : Nat
  user_id : Int
  amount : ℚ
  type : String
  category : String
  description : String
  date : Int
  account : Option String
  tags : Option (List String)
  created_at : Int
  updated_at : Option Int
  metadata : Option Metadata
deriving DecidableEq, Repr

/-- TransactionDB is the financial_transactions table plus its serial-id
counter. -/
structure TransactionDB where
  rows : List TransactionRow
  nextId : Nat
deriving DecidableEq, Repr

/-- Read-side row-to-entity mapping of the transaction repository: amount via
parseFloat of the driver string (exact here), account and tags passed through
(NULL becomes undefined), metadata parsed when non-NULL. -/
def transactionRowToEntity (r : TransactionRow) : FinancialTransaction :=
  ⟨r.user_id, r.amount, r.type, r.category, r.description, r.date, r.account,
   r.tags, r.metadata, r.created_at, r.updated_at, some r.id⟩

/-- Save of PostgresFinancialTransactionRepository: inserts a row with the
`|| null` coercion on the account label (an array-valued tags field is truthy
even when empty, so tags pass through); updated_at takes the column
default. -/
def transactionRepoSave (db : TransactionDB) (t : FinancialTransaction)
    (now : Int) : TransactionDB × FinancialTransaction :=
  let row : TransactionRow :=
    ⟨db.nextId, t.userId, t.amount, t.type, t.category, t.description, t.date,
     storeOptStr t.account, t.tags, t.createdAt, some now, t.metadata⟩
  (⟨db.rows ++ [row], db.nextId + 1⟩, transactionRowToEntity row)

/-- findById of PostgresFinancialTransactionRepository. -/
def transactionFindById (db : TransactionDB) (i : Nat) :
    Option FinancialTransaction :=
  (db.rows.find? (fun r => r.id == i)).map transactionRowToEntity

/-- Sort order of the transaction listing queries: ORDER BY date DESC,
created_at DESC. -/
def txnOrder (r1 r2 : TransactionRow) : Prop :=
  r2.date < r1.date ∨ (r1.date = r2.date ∧ r2.created_at ≤ r1.created_at)

instance : DecidableRel txnOrder := fun _ _ =>
  inferInstanceAs (Decidable (_ ∨ _))

instance : IsTotal TransactionRow txnOrder where
  total r1 r2 := by
    unfold txnOrder
    rcases lt_trichotomy r1.date r2.date with h | h | h
    · exact Or.inr (Or.inl h)
    · rcases le_total r2.created_at r1.created_at with h2 | h2
      · exact Or.inl (Or.inr ⟨h, h2⟩)
      · exact Or.inr (Or.inr ⟨h.symm, h2⟩)
    · exact Or.inl (Or.inl h)

instance : IsTrans TransactionRow txnOrder where
  trans r1 r2 r3 h12 h23 := by
    unfold txnOrder at *
    rcases h12 with h12 | ⟨he12, hc12⟩ <;> rcases h23 with h23 | ⟨he23, hc23⟩
    · exact Or.inl (lt_trans h23 h12)
    · exact Or.inl (he23 ▸ h12)
    · exact Or.inl (he12 ▸ h23)
    · exact Or.inr ⟨he12.trans he23, le_trans hc23 hc12⟩

/-- findByUserId of PostgresFinancialTransactionRepository: filters by user,
sorts by (date DESC, created_at DESC) and applies the result-count limit
(the TypeScript parameter defaults to 100 when omitted).  The sort is
modelled with insertion sort; SQL guarantees only sortedness, which is what
the theorems use. -/
def transactionFindByUserId (db : TransactionDB) (uid : Int) (limit : Nat) :
    List FinancialTransaction :=
  ((((db.rows.filter (fun r => r.user_id == uid)).insertionSort txnOrder).take
    limit).map transactionRowToEntity)

/-- GoalRow is one row of the financial_goals table as the goal repository
addresses it: the title lives in a `name` column and a `status` column is
present (the shipped migration instead creates a `title` column and no
status — the schema divergence the spec flags as an open question; spec
section 6 lists the repository's shape, which is modelled here). -/
structure GoalRow where
  id : Nat
  user_id : Int
  name : String
  description : Option String
  target_amount : ℚ
  current_amount : ℚ
  target_date : Option Int
  status : GoalStatus
  category : String
  created_at : Int
  updated_at : Option Int
deriving DecidableEq, Repr

/-- GoalDB is the financial_goals table plus its serial-id counter. -/
structure GoalDB where
  rows : List GoalRow
  nextId : Nat
deriving DecidableEq, Repr

/-- Read-side row-to-entity mapping of the goal repository: the `name` column
maps back to the title. -/
def goalRowToEntity (r : GoalRow) : FinancialGoal :=
  ⟨r.user_id, r.name, r.description, r.target_amount, r.current_amount,
   r.target_date, r.category, r.status, r.created_at, r.updated_at, some r.id⟩

/-- Save of PostgresFinancialGoalRepository: inserts a row with the `|| null`
coercion on the description (a Date object is truthy, so a present target
date passes through; a status string is nonempty, so `status || 'active'` is
the status itself); updated_at takes the column default. -/
def goalRepoSave (db : GoalDB) (g : FinancialGoal) (now : Int) :
    GoalDB × FinancialGoal :=
  let row : GoalRow :=
    ⟨db.nextId, g.userId, g.title, storeOptStr g.description, g.targetAmount,
     g.currentAmount, g.targetDate, g.status, g.category, g.createdAt, some now⟩
  (⟨db.rows ++ [row], db.nextId + 1⟩, goalRowToEntity row)

/-- findById of PostgresFinancialGoalRepository. -/
def goalFindById (db : GoalDB) (i : Nat) : Option FinancialGoal :=
  (db.rows.find? (fun r => r.id == i)).map goalRowToEntity

/-- Key comparison of the goal listing queries: ORDER BY target_date ASC
(PostgreSQL places NULLs last in ascending order), created_at DESC. -/
def goalKeyLE : Option Int → Int → Option Int → Int → Prop
  | some d1, c1, some d2, c2 => d1 < d2 ∨ (d1 = d2 ∧ c2 ≤ c1)
  | some _, _, none, _ => True
  | none, _, some _, _ => False
  | none, c1, none, c2 => c2 ≤ c1

instance goalKeyLE.decidable : ∀ (d1 : Option Int) (c1 : Int) (d2 : Option Int)
    (c2 : Int), Decidable (goalKeyLE d1 c1 d2 c2)
  | some _, _, some _, _ => inferInstanceAs (Decidable (_ ∨ _))
  | some _, _, none, _ => Decidable.isTrue trivial
  | none, _, some _, _ => Decidable.isFalse (fun h => h)
  | none, _, none, _ => inferInstanceAs (Decidable (_ ≤ _))

/-- Sort order of the goal listing queries, on rows. -/
def goalOrder (r1 r2 : GoalRow) : Prop :=
  goalKeyLE r1.target_date r1.created_at r2.target_date r2.created_at

instance : DecidableRel goalOrder := fun r1 r2 =>
  goalKeyLE.decidable r1.target_date r1.created_at r2.target_date r2.created_at

instance : IsTotal GoalRow goalOrder where
  total r1 r2 := by
    unfold goalOrder
    rcases hd1 : r1.target_date with _ | d1 <;>
      rcases hd2 : r2.target_date with _ | d2 <;>
      unfold goalKeyLE
    · exact le_total r2.created_at r1.created_at
    · exact Or.inr trivial
    · exact Or.inl trivial
    · rcases lt_trichotomy d1 d2 with h | h | h
      · exact Or.inl (Or.inl h)
      · rcases le_total r2.created_at r1.created_at with h2 | h2
        · exact Or.inl (Or.inr ⟨h, h2⟩)
        · exact Or.inr (Or.inr ⟨h.symm, h2⟩)
      · exact Or.inr (Or.inl h)

instance : IsTrans GoalRow goalOrder where
  trans r1 r2 r3 h12 h23 := by
    unfold goalOrder at *
    rcases hd1 : r1.target_date with _ | d1 <;>
      rcases hd2 : r2.target_date with _ | d2 <;>
      rcases hd3 : r3.target_date with _ | d3 <;>
      rw [hd1, hd2] at h12 <;> rw [hd2, hd3] at h23 <;>
      unfold goalKeyLE at * <;> try trivial
    · exact le_trans h23 h12
    · rcases h12 with h | ⟨he, hc⟩ <;> rcases h23 with h2 | ⟨he2, hc2⟩
      · exact Or.inl (lt_trans h h2)
      · exact Or.inl (he2 ▸ h)
      · exact Or.inl (he ▸ h2)
      · exact Or.inr ⟨he.trans he2, le_trans hc2 hc⟩

/-- findByUserId of PostgresFinancialGoalRepository: filters by user and sorts
by (target_date ASC, created_at DESC); it accepts no result-count limit. -/
def goalFindByUserId (db : GoalDB) (uid : Int) : List FinancialGoal :=
  ((db.rows.filter (fun r => r.user_id == uid)).insertionSort goalOrder).map
    goalRowToEntity

/-- Helper for C5: the `|| null` coercion is the identity away from the empty
string. -/
theorem storeOptStr_eq_self (o : Option String) (h : o ≠ some "") :
    storeOptStr o = o := by
  cases o with
  | none => rfl
  | some s =>
      simp only [storeOptStr]
      rw [if_neg]
      intro hs
      exact h (by rw [hs])

/-- Helper for C5: the `|| null` coercion is the identity away from zero. -/
theorem storeOptNum_eq_self (o : Option ℚ) (h : o ≠ some 0) :
    storeOptNum o = o := by
  cases o with
  | none => rfl
  | some q =>
      simp only [storeOptNum]
      rw [if_neg]
      intro hq
      exact h (by rw [hq])

/-- Helper for C5: a freshly appended row is the one found when no earlier row
matches the predicate. -/
theorem find?_append_fresh {α : Type} (l : List α) (p : α → Bool) (x : α)
    (hl : ∀ r ∈ l, p r = false) (hx : p x = true) :
    (l ++ [x]).find? p = some x := by
  rw [List.find?_append]
  have h1 : l.find? p = none :=
    List.find?_eq_none.mpr (fun r hr => by simp [hl r hr])
  rw [h1]
  simp [List.find?_cons, hx]

/-- C5 counterexample: a valid FinancialAccount with a balance of exactly 0 is
stored with a NULL balance column (the save mapping `account.balance || null`
coerces the falsy 0) and is read back with an undefined balance, so the
save-then-findById round trip is not field-for-field equal at that input. -/
theorem roundtrip_balance_zero_counterexample :
    (mkFinancialAccount 7 "Wallet" "cash" none (some 0) true 0 none none
      = .ok ⟨7, "Wallet", "cash", none, some 0, true, 0, none, none⟩) ∧
    ((accountFindById
        (accountRepoSave ⟨[], 1⟩
          ⟨7, "Wallet", "cash", none, some 0, true, 0, none, none⟩ 5).1
        1).map FinancialAccount.balance = some none) ∧
    some (0 : ℚ) ≠ (none : Option ℚ) := by
  refine ⟨by decide, by decide, by decide⟩

/-- C5 amended: saving a valid entity and retrieving it by the assigned
identity returns the same payload fields (identity and the database-defaulted
update timestamp excluded), provided no optional field holds a falsy value
that the adapters' `|| null` write coercions collapse to NULL: an account
balance of exactly 0, an empty-string account bank, transaction account label
or goal description are read back as undefined instead. -/
theorem repository_roundtrip_amended
    (tdb : TransactionDB) (t : FinancialTransaction)
    (adb : AccountDB) (a : FinancialAccount)
    (gdb : GoalDB) (g : FinancialGoal) (now : Int)
    (hwt : ∀ r ∈ tdb.rows, r.id < tdb.nextId)
    (hwa : ∀ r ∈ adb.rows, r.id < adb.nextId)
    (hwg : ∀ r ∈ gdb.rows, r.id < gdb.nextId)
    (hacct : t.account ≠ some "")
    (hbank : a.bank ≠ some "") (hbal : a.balance ≠ some 0)
    (hdesc : g.description ≠ some "") :
    ((transactionFindById (transactionRepoSave tdb t now).1 tdb.nextId).map
        (fun e => (e.userId, e.amount, e.type, e.category, e.description,
                   e.date, e.account, e.tags, e.metadata, e.createdAt))
      = some (t.userId, t.amount, t.type, t.category, t.description, t.date,
              t.account, t.tags, t.metadata, t.createdAt)) ∧
    ((accountFindById (accountRepoSave adb a now).1 adb.nextId).map
        (fun e => (e.userId, e.name, e.type, e.bank, e.balance, e.isActive,
                   e.createdAt))
      = some (a.userId, a.name, a.type, a.bank, a.balance, a.isActive,
              a.createdAt)) ∧
    ((goalFindById (goalRepoSave gdb g now).1 gdb.nextId).map
        (fun e => (e.userId, e.title, e.description, e.targetAmount,
                   e.currentAmount, e.targetDate, e.category, e.status,
                   e.createdAt))
      = some (g.userId, g.title, g.description, g.targetAmount,
              g.currentAmount, g.targetDate, g.category, g.status,
              g.createdAt)) := by
  refine ⟨?_, ?_, ?_⟩
  · have hfind : (transactionRepoSave tdb t now).1.rows.find?
        (fun r => r.id == tdb.nextId)
        = some ⟨tdb.nextId, t.userId, t.amount, t.type, t.category,
            t.description, t.date, storeOptStr t.account, t.tags, t.createdAt,
            some now, t.metadata⟩ := by
      exact find?_append_fresh _ _ _
        (fun r hr => by simp [Nat.ne_of_lt (hwt r hr)]) (by simp)
    unfold transactionFindById
    rw [hfind]
    simp [transactionRowToEntity, storeOptStr_eq_self _ hacct]
  · have hfind : (accountRepoSave adb a now).1.rows.find?
        (fun r => r.id == adb.nextId)
        = some ⟨adb.nextId, a.userId, a.name, a.type, storeOptStr a.bank,
            storeOptNum a.balance, a.isActive, a.createdAt, some now⟩ := by
      exact find?_append_fresh _ _ _
        (fun r hr => by simp [Nat.ne_of_lt (hwa r hr)]) (by simp)
    unfold accountFindById
    rw [hfind]
    simp [accountRowToEntity, storeOptStr_eq_self _ hbank,
          storeOptNum_eq_self _ hbal]
  · have hfind : (goalRepoSave gdb g now).1.rows.find?
        (fun r => r.id == gdb.nextId)
        = some ⟨gdb.nextId, g.userId, g.title, storeOptStr g.description,
            g.targetAmount, g.currentAmount, g.targetDate, g.status,
            g.category, g.createdAt, some now⟩ := by
      exact find?_append_fresh _ _ _
        (fun r hr => by simp [Nat.ne_of_lt (hwg r hr)]) (by simp)
    unfold goalFindById
    rw [hfind]
    simp [goalRowToEntity, storeOptStr_eq_self _ hdesc]

/-- Witness for C5 amended: round trip of one concrete transaction, account
and goal through empty tables. -/
theorem repository_roundtrip_amended_witness :
    ((transactionFindById
        (transactionRepoSave ⟨[], 1⟩
          ⟨3, 50, "expense", "food", "lunch", 10, none, none, none, 2, none,
           none⟩ 5).1 1).map
        (fun e => (e.userId, e.amount, e.type, e.category, e.description,
                   e.date, e.account, e.tags, e.metadata, e.createdAt))
      = some ((3 : Int), (50 : ℚ), "expense", "food", "lunch", (10 : Int),
              (none : Option String), (none : Option (List String)),
              (none : Option Metadata), (2 : Int))) ∧
    ((accountFindById
        (accountRepoSave ⟨[], 1⟩
          ⟨3, "Main", "checking", some "BB", some 5, true, 2, none, none⟩
          5).1 1).map
        (fun e => (e.userId, e.name, e.type, e.bank, e.balance, e.isActive,
                   e.createdAt))
      = some ((3 : Int), "Main", "checking", some "BB", some (5 : ℚ), true,
              (2 : Int))) ∧
    ((goalFindById
        (goalRepoSave ⟨[], 1⟩
          ⟨3, "Trip", none, 100, 20, some 99, "travel", .active, 2, none,
           none⟩ 5).1 1).map
        (fun e => (e.userId, e.title, e.description, e.targetAmount,
                   e.currentAmount, e.targetDate, e.category, e.status,
                   e.createdAt))
      = some ((3 : Int), "Trip", (none : Option String), (100 : ℚ), (20 : ℚ),
              some (99 : Int), "travel", GoalStatus.active, (2 : Int))) :=
  repository_roundtrip_amended ⟨[], 1⟩
    ⟨3, 50, "expense", "food", "lunch", 10, none, none, none, 2, none, none⟩
    ⟨[], 1⟩ ⟨3, "Main", "checking", some "BB", some 5, true, 2, none, none⟩
    ⟨[], 1⟩ ⟨3, "Trip", none, 100, 20, some 99, "travel", .active, 2, none, none⟩
    5 (by decide) (by decide) (by decide) (by decide) (by decide) (by decide)
    (by decide)

/-- C6 counterexample: the goal listing sorts by target_date ascending (and
takes no result-count limit), so a user with goals dated 5 and 10 gets them
earliest-first — the claimed descending business-date order is violated. -/
theorem goal_listing_order_counterexample :
    ((goalFindByUserId
        ⟨[⟨1, 1, "A", none, 100, 0, some 10, .active, "c", 0, none⟩,
          ⟨2, 1, "B", none, 100, 0, some 5, .active, "c", 0, none⟩], 3⟩
        1).map FinancialGoal.targetDate = [some 5, some 10]) ∧
    ((5 : Int) < 10) := by
  refine ⟨by decide, by decide⟩

/-- C6 amended: the transaction listing accepts a result-count limit (the
TypeScript parameter defaults to 100) and returns results sorted by
(date DESC, created_at DESC); the goal listing accepts no limit and returns
results sorted by (target_date ASC with NULLs last, created_at DESC). -/
theorem listing_sort_amended (tdb : TransactionDB) (gdb : GoalDB) (uid : Int)
    (limit : Nat) :
    ((transactionFindByUserId tdb uid limit).length ≤ limit ∧
      List.Pairwise (fun e1 e2 : FinancialTransaction =>
        e2.date < e1.date ∨ (e1.date = e2.date ∧ e2.createdAt ≤ e1.createdAt))
        (transactionFindByUserId tdb uid limit)) ∧
    List.Pairwise (fun e1 e2 : FinancialGoal =>
      goalKeyLE e1.targetDate e1.createdAt e2.targetDate e2.createdAt)
      (goalFindByUserId gdb uid) := by
  refine ⟨⟨?_, ?_⟩, ?_⟩
  · unfold transactionFindByUserId
    rw [List.length_map, List.length_take]
    exact min_le_left _ _
  · unfold transactionFindByUserId
    rw [List.pairwise_map]
    refine List.Pairwise.sublist (List.take_sublist _ _) ?_
    exact List.sorted_insertionSort txnOrder
      (tdb.rows.filter (fun r => r.user_id == uid))
  · unfold goalFindByUserId
    rw [List.pairwise_map]
    exact List.sorted_insertionSort goalOrder
      (gdb.rows.filter (fun r => r.user_id == uid))

/-- AudioFile entity state
(src/domain/transcription/entities/audio-file.entity.ts). -/
structure AudioFile where
  fileId : String
  filePath : String
  mimeType : String
  fileSize : Int
deriving DecidableEq, Repr

/-- Constructor of AudioFile: validates fileId, filePath and a positive size;
the MIME type is not validated at construction. -/
def mkAudioFile (fileId : String) (filePath : String) (mimeType : String)
    (fileSize : Int) : Except String AudioFile :=
  if isBlankStr fileId then .error "File ID cannot be empty"
  else if isBlankStr filePath then .error "File path cannot be empty"
  else if fileSize ≤ 0 then .error "File size must be greater than 0"
  else .ok ⟨fileId, filePath, mimeType, fileSize⟩

/-- Allow-list of audio MIME types of AudioFile.isSupportedFormat. -/
def supportedAudioTypes : List String :=
  ["audio/mpeg", "audio/mp3", "audio/wav", "audio/ogg", "audio/flac",
   "audio/aac"]

/-- Method isSupportedFormat of AudioFile. -/
def AudioFile.isSupportedFormat (f : AudioFile) : Bool :=
  supportedAudioTypes.contains f.mimeType

/-- Method isWithinSizeLimit of AudioFile; the use case calls it with the
default limit of `20 * 1024 * 1024` bytes. -/
def AudioFile.isWithinSizeLimit (f : AudioFile) (limitInBytes : Int) : Bool :=
  f.fileSize ≤ limitInBytes

/-- ByteBuf stands for an audio byte buffer. -/
abbrev ByteBuf := List Nat

/-- TranscribeEvent records the externally visible effects of
TranscribeAudioUseCase.execute: fetching the audio bytes over the network and
invoking the speech-to-text port. -/
inductive TranscribeEvent
  | fetchAudio
  | speechToText
deriving DecidableEq, Repr

/-- TranscriptionRequest mirrors TranscriptionRequestDTO (the timestamp is
read through `request.timestamp || new Date()`, hence optional here). -/
structure TranscriptionRequest where
  userId : Int
  username : Option String
  audioFile : AudioFile
  audioDuration : Option ℚ
  timestamp : Option Int
deriving DecidableEq, Repr

/-- TranscriptionResult mirrors TranscriptionResultDTO with its metadata
fields flattened. -/
structure TranscriptionResult where
  text : String
  fileId : String
  duration : Option ℚ
  format : String
  timestamp : Int
  userId : Int
  username : Option String
  fileSize : Int
deriving DecidableEq, Repr

/-- TranscribeAudioUseCase.execute, parametrised by the outcomes of the two
external calls (the axios fetch of the audio bytes and the speech-to-text
port) and returning the events it performed, in order.  The steps follow the
source: validate format then size (failing fast before any network call),
fetch the bytes (a non-http path fails without a fetch, wrapped in the
"Failed to fetch audio file" message like any fetch error), invoke the port,
build the Transcription entity, and return the result DTO. -/
def transcribeExecute (req : TranscriptionRequest)
    (fetchResult : Except String ByteBuf) (sttResult : Except String String)
    (now : Int) : Except String TranscriptionResult × List TranscribeEvent :=
  if req.audioFile.isSupportedFormat = false then
    (.error ("Unsupported audio format: " ++ req.audioFile.mimeType), [])
  else if req.audioFile.isWithinSizeLimit (20 * 1024 * 1024) = false then
    (.error ("Audio file too large: " ++ toString req.audioFile.fileSize
      ++ " bytes"), [])
  else if req.audioFile.filePath.startsWith "http" = false then
    (.error "Failed to fetch audio file: Local file reading not yet implemented",
     [])
  else
    match fetchResult with
    | .error msg =>
        (.error ("Failed to fetch audio file: " ++ msg), [.fetchAudio])
    | .ok _ =>
        match sttResult with
        | .error msg => (.error msg, [.fetchAudio, .speechToText])
        | .ok text =>
            match mkTranscription req.userId text (req.timestamp.getD now)
                req.audioDuration
                (some [("fileId", req.audioFile.fileId),
                       ("mimeType", req.audioFile.mimeType)]) none with
            | .error msg => (.error msg, [.fetchAudio, .speechToText])
            | .ok _ =>
                (.ok ⟨text, req.audioFile.fileId, req.audioDuration,
                      req.audioFile.mimeType, req.timestamp.getD now,
                      req.userId, req.username, req.audioFile.fileSize⟩,
                 [.fetchAudio, .speechToText])

/-- C7: an unsupported MIME type is rejected with a format-specific error and
an oversize file (> 20 MB) with a size-specific error, in both cases before
the audio bytes are fetched and before the speech-to-text port is invoked
(the event trace is empty). -/
theorem transcribe_rejects_before_port (req : TranscriptionRequest)
    (fetchResult : Except String ByteBuf) (sttResult : Except String String)
    (now : Int) :
    (req.audioFile.isSupportedFormat = false →
      transcribeExecute req fetchResult sttResult now =
        (.error ("Unsupported audio format: " ++ req.audioFile.mimeType), [])) ∧
    (req.audioFile.isSupportedFormat = true →
      req.audioFile.isWithinSizeLimit (20 * 1024 * 1024) = false →
      transcribeExecute req fetchResult sttResult now =
        (.error ("Audio file too large: " ++ toString req.audioFile.fileSize
          ++ " bytes"), [])) := by
  constructor
  · intro h1
    simp [transcribeExecute, h1]
  · intro h1 h2
    have h2a : req.audioFile.isWithinSizeLimit 20971520 = false := by
      have h20 : (20971520 : Int) = 20 * 1024 * 1024 := by norm_num
      rw [h20]
      exact h2
    simp [transcribeExecute, h1, h2, h2a]

/-- Witness for C7: a concrete mp4-video request is rejected with the
format-specific error and an empty event trace, and a concrete oversize audio
request with the size-specific error and an empty event trace. -/
theorem transcribe_rejects_before_port_witness :
    (transcribeExecute
        ⟨1, none, ⟨"f1", "http://x", "video/mp4", 1000⟩, none, none⟩
        (.ok []) (.ok "hello") 0 =
      (.error ("Unsupported audio format: " ++ "video/mp4"), [])) ∧
    (transcribeExecute
        ⟨1, none, ⟨"f2", "http://x", "audio/mpeg", 20971521⟩, none, none⟩
        (.ok []) (.ok "hello") 0 =
      (.error ("Audio file too large: " ++ toString (20971521 : Int)
        ++ " bytes"), [])) :=
  ⟨(transcribe_rejects_before_port
      ⟨1, none, ⟨"f1", "http://x", "video/mp4", 1000⟩, none, none⟩
      (.ok []) (.ok "hello") 0).1 (by decide),
   (transcribe_rejects_before_port
      ⟨1, none, ⟨"f2", "http://x", "audio/mpeg", 20971521⟩, none, none⟩
      (.ok []) (.ok "hello") 0).2 (by decide) (by decide)⟩
